import Mathlib

/-!
Verification development for the Webflow-Agent repository.

The definitions below are shallow embeddings of the pure decision logic of
`src/navigator.py` (element scoring, ranking, tie-breaking and fallback
resolution), `src/agent.py` (repair-suggestion validation, the per-step retry
loop, the plan sanitizer) and `src/screenshot.py` (capture skipping).
Strings are modelled as lists of characters; the Python string operations
used by the code (`lower`, `strip`, `split`, `in`, `startswith`, `endswith`,
`replace`) are given explicit executable counterparts first.
-/

namespace Webflow

/-- Model of Python `s.lower()` applied to a string, as a character list. -/
def lcs (s : String) : List Char := s.data.map Char.toLower

/-- Boolean prefix test on character lists (`isPrefL p l`: `p` is a prefix of `l`). -/
def isPrefL : List Char → List Char → Bool
  | [], _ => true
  | _ :: _, [] => false
  | a :: as, b :: bs => a == b && isPrefL as bs

/-- Boolean suffix test on character lists. -/
def isSuffL (s l : List Char) : Bool := isPrefL s.reverse l.reverse

/-- Model of Python `a in b` (substring test): `containsL hay needle`. -/
def containsL : List Char → List Char → Bool
  | hay, needle =>
    match hay with
    | [] => needle.isEmpty
    | _ :: t => isPrefL needle hay || containsL t needle

/-- Drop leading whitespace (helper for Python `str.strip()`). -/
def trimLeadWs : List Char → List Char
  | [] => []
  | c :: r => if c.isWhitespace then trimLeadWs r else c :: r

/-- Model of Python `str.strip()` (no arguments): drop whitespace at both ends. -/
def stripWs (l : List Char) : List Char :=
  ((trimLeadWs ((trimLeadWs l).reverse)).reverse)

/-- Helper for `splitWs`: accumulates the current word in reverse. -/
def splitWsAux : List Char → List Char → List (List Char)
  | acc, [] => if acc.isEmpty then [] else [acc.reverse]
  | acc, c :: r =>
    if c.isWhitespace then
      if acc.isEmpty then splitWsAux [] r else acc.reverse :: splitWsAux [] r
    else splitWsAux (c :: acc) r

/-- Model of Python `str.split()` (no arguments): split on whitespace runs,
dropping empty pieces. -/
def splitWs (l : List Char) : List (List Char) := splitWsAux [] l

/-- A regex word character, as used by the `\b` anchors in `re.search`. -/
def isWordChar (c : Char) : Bool := c.isAlphanum || c = '_'

/-- Whether a `\b` word boundary sits between the two optional characters. -/
def wordBoundary (prev next : Option Char) : Bool :=
  (prev.elim false isWordChar) != (next.elim false isWordChar)

/-- Whether `needle` matches at the head of `rest` with `\b` anchors on both
sides (`prev` is the character immediately before this position). -/
def wbHere (needle : List Char) (prev : Option Char) (rest : List Char) : Bool :=
  rest.take needle.length == needle
    && wordBoundary prev needle.head?
    && wordBoundary needle.getLast? ((rest.drop needle.length).head?)

/-- Scan `rest` for a `\b needle \b` match (helper for `wordBoundarySearch`). -/
def wbFrom (needle : List Char) : Option Char → List Char → Bool
  | prev, [] => wbHere needle prev []
  | prev, c :: rest => wbHere needle prev (c :: rest) || wbFrom needle (some c) rest

/-- Model of Python `re.search(r'\b' + re.escape(needle) + r'\b', hay)`
(used for the word-boundary tier of the fillable-field scorer). -/
def wordBoundarySearch (hay needle : List Char) : Bool :=
  wbFrom needle none hay

/-! ## Click resolution: `Navigator.click` Strategy 5 (navigator.py 339-637)

A clickable candidate as observed by the loop at navigator.py 350-492.
`textContent` / `ariaLabelAttr` are the raw values; the code strips them on
read. `typeAttr` is the element's `type` attribute (read both as
`input_type` and as `btn_type`). `inFormContext` is the first ancestor probe
(FORM / role=dialog / .modal / .form / .Dialog, navigator.py 447-462);
`inFormDialog` is the second, stricter probe (FORM / role=dialog only,
navigator.py 535-547). -/

structure Btn where
  tagName : String
  typeAttr : String
  visible : Bool
  textContent : String
  ariaLabelAttr : String
  btnId : String
  btnClass : String
  inFormContext : Bool
  inFormDialog : Bool
deriving DecidableEq

/-- `text_content = (await btn.text_content() or "").strip()` (navigator.py 364). -/
def btnText (b : Btn) : List Char := stripWs b.textContent.data

/-- `aria_label.strip()` (navigator.py 368-369). -/
def btnAria (b : Btn) : List Char := stripWs b.ariaLabelAttr.data

/-- `text_lower` (navigator.py 365). -/
def btnTextLower (b : Btn) : List Char := (btnText b).map Char.toLower

/-- `aria_lower` (navigator.py 370). -/
def btnAriaLower (b : Btn) : List Char := (btnAria b).map Char.toLower

/-- The outright-exclusion test of navigator.py 377-391: a short label
containing "more", an id containing "toggle"/"more", or a checkbox input
with toggle context. Such candidates are skipped before scoring. -/
def btnDisqualified (b : Btn) : Bool :=
  let textLower := btnTextLower b
  let ariaLower := btnAriaLower b
  let idLower := lcs b.btnId
  let textHasMore := containsL textLower "more".data
      && decide ((splitWs textLower).length ≤ 3)
  let ariaHasMore := containsL ariaLower "more".data
      && decide ((splitWs ariaLower).length ≤ 3)
  let idHasToggle := containsL idLower "toggle".data || containsL idLower "more".data
  let isCheckboxWithMore := b.tagName = "input"
      && (b.typeAttr = "checkbox" || containsL idLower "toggle".data
          || containsL idLower "more".data)
  textHasMore || ariaHasMore || idHasToggle || isCheckboxWithMore

/-- `_share_significant_words` (navigator.py 667-686). -/
def shareSignificantWords (t1 t2 : List Char) : Bool :=
  if t1.isEmpty || t2.isEmpty then false
  else
    let commonWords : List (List Char) :=
      ["the", "a", "an", "and", "or", "but", "in", "on", "at", "to",
       "for", "of", "with", "by"].map String.data
    let sig := fun (t : List Char) =>
      (splitWs (t.map Char.toLower)).filter
        (fun w => !commonWords.contains w && decide (2 < w.length))
    let w1 := (sig t1).dedup
    let w2 := (sig t2).dedup
    let shared := (w1.filter (fun w => w2.contains w)).length
    if 2 ≤ shared then true
    else if !w1.isEmpty && !w2.isEmpty then
      w1.all (fun w => w2.contains w) || w2.all (fun w => w1.contains w)
    else false

/-- Base-score tiers for text-based click targets (navigator.py 420-440):
first matching tier wins; an unmatched candidate is dropped (`none`). -/
def textMatchBase (sel text aria : List Char) : Option Int :=
  if sel = text || sel = aria then some 100
  else if isPrefL (sel ++ [' ']) text then some 80
  else if isPrefL sel text then some 60
  else if shareSignificantWords sel text || shareSignificantWords sel aria then some 50
  else if containsL text sel || containsL aria sel then some 40
  else none

/-- Base-score tiers for aria-label-selector click targets
(navigator.py 397-418). -/
def ariaMatchBase (sel aria : List Char) : Option Int :=
  if sel = aria then some 100
  else if isPrefL sel aria then some 80
  else if isPrefL aria sel then some 75
  else if shareSignificantWords sel aria then some 60
  else if containsL aria sel || containsL sel aria then some 40
  else none

/-- First scoring pass over one candidate (navigator.py 350-490): visibility
and checkbox/radio skips, the outright exclusion, the match tiers, then the
contextual bonuses and class-based penalties. `none` means the candidate is
not kept in `scored_buttons`. -/
def scoreButton (isAria : Bool) (sel : List Char) (b : Btn) : Option Int :=
  if !b.visible then none
  else if b.tagName = "input" && (b.typeAttr = "checkbox" || b.typeAttr = "radio") then none
  else if btnDisqualified b then none
  else
    let textLower := btnTextLower b
    let ariaLower := btnAriaLower b
    match (if isAria then ariaMatchBase sel ariaLower
           else textMatchBase sel textLower ariaLower) with
    | none => none
    | some base =>
      let classLower := lcs b.btnClass
      let idLower := lcs b.btnId
      let wc := if !textLower.isEmpty then (splitWs textLower).length
                else (splitWs ariaLower).length
      some (base
        + (if b.inFormContext then 30 else 0)
        + (if b.typeAttr = "submit" then 30 else 0)
        + (if containsL classLower "submit".data || containsL classLower "primary".data
           then 25 else 0)
        + (if 2 ≤ wc then 20 else 0)
        + (if containsL idLower "toggle".data || containsL classLower "toggle".data
           then -100 else 0)
        + (if containsL classLower "checkbox".data || containsL classLower "switch".data
           then -100 else 0))

/-- Second adjustment pass, applied only when more than one candidate was
kept (navigator.py 499-552): toggle penalty, action-button bonus and the
stricter form/dialog bonus. -/
def phase2Adjust (b : Btn) : Int :=
  let textLower := btnTextLower b
  let ariaLower := btnAriaLower b
  let idLower := lcs b.btnId
  let isToggle := containsL textLower "more".data || containsL ariaLower "more".data
      || containsL idLower "toggle".data || containsL idLower "more".data
  let wc := if !textLower.isEmpty then (splitWs textLower).length
            else (splitWs ariaLower).length
  let hasToggleWords := (["more", "less", "toggle", "switch"].map String.data).any
      (fun w => containsL textLower w || containsL ariaLower w)
  let isActionButton := decide (2 ≤ wc) && !hasToggleWords
      && !isSuffL " more".data textLower && !isSuffL " more".data ariaLower
      && !isSuffL " less".data textLower && !isSuffL " less".data ariaLower
  (if isToggle then -200 else 0) + (if isActionButton then 100 else 0)
    + (if b.inFormDialog then 50 else 0)

/-- The semantic tie-breaker score for one tied candidate
(navigator.py 567-594): shared-word count, action-word bonus, and the
navigation/accessibility penalty. -/
def semanticTiebreaker (sel : List Char) (b : Btn) : Int :=
  let btnT := btnTextLower b
  let btnA := btnAriaLower b
  let targetWords := (splitWs sel).dedup
  let btnWords := splitWs (btnT ++ ' ' :: btnA)
  let common := targetWords.filter (fun w => btnWords.contains w)
  let base : Int :=
    if !common.isEmpty then
      (common.length : Int) * 10
        + (if (["add", "create", "new", "task", "issue", "project"].map String.data).any
              (fun w => containsL sel w && (containsL btnT w || containsL btnA w))
           then 50 else 0)
    else 0
  base - (if (["skip", "main content", "accessibility", "navigation"].map String.data).any
             (fun w => containsL btnT w || containsL btnA w)
          then 100 else 0)

/-- Stable insertion step: `x` is placed before the first element it is
greater-or-equal to under `ge`. -/
def insertByGe (ge : α → α → Bool) (x : α) : List α → List α
  | [] => [x]
  | y :: ys => if ge x y then x :: y :: ys else y :: insertByGe ge x ys

/-- Stable descending sort (models Python `list.sort(key=..., reverse=True)`,
which keeps the original order of elements with equal keys). -/
def sortByGe (ge : α → α → Bool) (l : List α) : List α := l.foldr (insertByGe ge) []

/-- Pair each element with its position, starting at `n` (models
`scored_buttons.index(x)`, which is each candidate's position because the
candidate dicts hold distinct element handles). -/
def withIdx : List α → Nat → List (α × Nat)
  | [], _ => []
  | x :: xs, n => (x, n) :: withIdx xs (n + 1)

/-- The tied top-score candidates with their positions in the sorted list
(navigator.py 560-561). -/
def topTied (sorted : List (Btn × Int)) : List ((Btn × Int) × Nat) :=
  match sorted with
  | [] => []
  | p :: _ => (withIdx sorted 0).filter (fun q => q.1.2 = p.2)

/-- The candidates whose score differs from the top score
(navigator.py 600). -/
def nonTop (sorted : List (Btn × Int)) : List (Btn × Int) :=
  match sorted with
  | [] => []
  | p :: _ => sorted.filter (fun q => q.2 ≠ p.2)

/-- Descending comparison on `(semantic_tiebreaker, index)` used by the tied
re-sort with `reverse=True` (navigator.py 597). -/
def tieGe (sel : List Char) (p q : (Btn × Int) × Nat) : Bool :=
  let sp := semanticTiebreaker sel p.1.1
  let sq := semanticTiebreaker sel q.1.1
  decide (sq < sp) || (decide (sp = sq) && decide (q.2 ≤ p.2))

/-- The tie-handling pass (navigator.py 557-607): when several candidates
share the top score they are re-sorted by `(semantic score, position)`
descending and placed back in front of the rest. -/
def tieBreakPass (sel : List Char) (sorted : List (Btn × Int)) : List (Btn × Int) :=
  if 1 < (topTied sorted).length then
    (sortByGe (tieGe sel) (topTied sorted)).map (fun q => q.1) ++ nonTop sorted
  else sorted

/-- The full ranking of Strategy 5 (navigator.py 484-614): first-pass
scoring keeps matching candidates; with more than one kept candidate the
second adjustment pass, the stable descending sort and the tie-break pass
run; with one candidate the list is used as-is. -/
def rankButtons (isAria : Bool) (sel : List Char) (btns : List Btn) : List (Btn × Int) :=
  let scored := btns.filterMap (fun b => (scoreButton isAria sel b).map (fun s => (b, s)))
  if 1 < scored.length then
    tieBreakPass sel
      (sortByGe (fun p q => decide (q.2 ≤ p.2))
        (scored.map (fun p => (p.1, p.2 + phase2Adjust p.1))))
  else scored

/-- Whether the final safety check treats a candidate as a "more" button
(navigator.py 618-621). -/
def btnHasMore (b : Btn) : Bool :=
  containsL (btnTextLower b) "more".data || containsL (btnAriaLower b) "more".data

/-- The selected candidate of Strategy 5, after the final safety check that
overrides a "more"-labelled winner with the first non-"more" alternative
(navigator.py 616-633). `none` means `scored_buttons` was empty and the
strategy falls through. -/
def clickPick : List (Btn × Int) → Option Btn
  | [] => none
  | best :: rest =>
    if btnHasMore best.1 then
      match rest.find? (fun p => !btnHasMore p.1) with
      | some alt => some alt.1
      | none => some best.1
    else some best.1

def clickSelect (isAria : Bool) (sel : List Char) (btns : List Btn) : Option Btn :=
  clickPick (rankButtons isAria sel btns)

/-! ## Click resolution: Strategy 6 and the final raise (navigator.py 639-665) -/

/-- An element as seen by the attribute-based fallback selectors. -/
structure AttrEl where
  visible : Bool
  ariaLabelAttr : String
  dataTestid : String
  titleAttr : String
  isButtonTag : Bool
deriving DecidableEq

/-- First element matched by one attribute selector; the element is clicked
only when it is also visible, otherwise the next selector is tried. -/
def firstVisibleHit : List (Option AttrEl) → Option AttrEl
  | [] => none
  | none :: rest => firstVisibleHit rest
  | some e :: rest => if e.visible then some e else firstVisibleHit rest

/-- Strategy 6 (navigator.py 640-660): the four attribute-containment
selectors tried in order. CSS `*=` containment is case-sensitive; the
`data-testid` selector uses the lowercased selector text. -/
def clickAttrFallback (cleanSel : String) (els : List AttrEl) : Option AttrEl :=
  firstVisibleHit
    [els.find? (fun e => containsL e.ariaLabelAttr.data cleanSel.data),
     els.find? (fun e => containsL e.dataTestid.data (lcs cleanSel)),
     els.find? (fun e => containsL e.titleAttr.data cleanSel.data),
     els.find? (fun e => e.isButtonTag && containsL e.ariaLabelAttr.data cleanSel.data)]

/-- Outcome of the click fallback chain: a clicked element, or the raised
`Failed to click element` error (navigator.py 662-665). -/
def clickFallbackOutcome (cleanSel : String) (els : List AttrEl) : Except String AttrEl :=
  match clickAttrFallback cleanSel els with
  | some e => Except.ok e
  | none => Except.error "Failed to click element"

/-! ## Type resolution: contenteditable scoring (navigator.py 702-832)

A contenteditable / role=textbox candidate field as read by Strategy 0. -/

structure CEField where
  visible : Bool
  ariaLabelAttr : String
  idAttr : String
  placeholderAttr : String
  textContent : String
deriving DecidableEq

/-- The match tiers of the contenteditable scorer (navigator.py 743-771):
exact aria 1000, word-boundary containment in aria 800 / bare containment
500, selector-starts-with-aria 400, aria-starts-with-selector 600, id
containment 300, placeholder containment 200; otherwise the field is not a
candidate. Arguments are the already-lowercased attribute values. -/
def ceBase (sel aria ceId ph : List Char) : Option Int :=
  if sel = aria then some 1000
  else if containsL aria sel then
    (if wordBoundarySearch aria sel then some 800 else some 500)
  else if !aria.isEmpty && isPrefL aria sel then some 400
  else if isPrefL sel aria then some 600
  else if containsL ceId sel then some 300
  else if containsL ph sel then some 200
  else none

/-- Full score of one contenteditable candidate (navigator.py 727-793):
base tier, the +200 empty-field bonus or -500 filled-with-different-text
penalty, and the flat +100 modal bonus. `txt` is the text to be typed. -/
def ceScore (modalPresent : Bool) (sel txt : List Char) (f : CEField) : Option Int :=
  if !f.visible then none
  else
    let aria := stripWs f.ariaLabelAttr.data
    let ariaLower := aria.map Char.toLower
    let ceId := lcs f.idAttr
    let ph := lcs f.placeholderAttr
    let current := stripWs f.textContent.data
    match ceBase sel ariaLower ceId ph with
    | none => none
    | some base =>
      some (base
        + (if current.isEmpty then 200
           else if !(current.map Char.toLower = txt.map Char.toLower) then -500
           else 0)
        + (if modalPresent then 100 else 0))

/-- The field Strategy 0 types into: the kept candidates sorted by score
descending (stable) and the best taken (navigator.py 797-800). -/
def ceSelect (modalPresent : Bool) (sel txt : List Char) (fs : List CEField) :
    Option CEField :=
  let scored := fs.filterMap (fun f => (ceScore modalPresent sel txt f).map (fun s => (f, s)))
  match sortByGe (fun p q => decide (q.2 ≤ p.2)) scored with
  | [] => none
  | best :: _ => some best.1

/-! ## Type resolution: Strategy 7 page-wide scan and the final raise
(navigator.py 1028-1072) -/

/-- A standard input/textarea element as read by the page-wide scan. -/
structure InputEl where
  visible : Bool
  value : String
  placeholderAttr : String
  nameAttr : String
  idAttr : String
  ariaLabelAttr : String
deriving DecidableEq

/-- The attribute-containment part of the Strategy 7 `matches` test
(navigator.py 1048-1052): the search term occurs in name, id, placeholder
or aria-label (all lowercased). -/
def inputAttrMatches (sel : List Char) (i : InputEl) : Bool :=
  containsL (lcs i.nameAttr) sel || containsL (lcs i.idAttr) sel
    || containsL (lcs i.placeholderAttr) sel || containsL (lcs i.ariaLabelAttr) sel

/-- The full Strategy 7 `matches` test (navigator.py 1048-1055): attribute
containment, or a placeholder containing one of the generic field words. -/
def inputCtxMatches (sel : List Char) (i : InputEl) : Bool :=
  inputAttrMatches sel i
    || (["name", "title", "description", "text", "input", "value", "field"].map
          String.data).any (fun w => containsL (lcs i.placeholderAttr) w)

/-- Strategy 7 (navigator.py 1029-1064): the first ten inputs (modal-scoped
if any, else page-wide) are scanned and the first visible, empty one that
matches — or any, when the cleaned selector is empty — is filled. -/
def strategy7Pick (sel : List Char) (modalInputs pageInputs : List InputEl) :
    Option InputEl :=
  let pool := if modalInputs.isEmpty then pageInputs else modalInputs
  (pool.take 10).find?
    (fun i => i.visible && i.value.isEmpty && (inputCtxMatches sel i || sel.isEmpty))

/-- Outcome of the final type fallback: a filled input, or the raised
`Failed to type into element` error (navigator.py 1069-1072). -/
def typeFinalOutcome (sel : List Char) (modalInputs pageInputs : List InputEl) :
    Except String InputEl :=
  match strategy7Pick sel modalInputs pageInputs with
  | some e => Except.ok e
  | none => Except.error "Failed to type into element"

/-! ## Repair-oracle suggestion validation (`AgentB._adapt_plan_from_page`,
agent.py 863-1065) -/

/-- A parsed oracle response. `target`/`suggestedAction` empty model a
missing or empty JSON field (agent.py 981, 995, 1054). -/
structure Suggestion where
  skip : Bool
  target : String
  suggestedAction : String
deriving DecidableEq

/-- What the validation pass does to the failed step. `unchanged` is the
outer `except` branch (agent.py 1062-1065), which leaves the plan as it
was. -/
inductive AdaptResult where
  | committed (target : String) (action : String) : AdaptResult
  | stepSkipped : AdaptResult
  | unchanged : AdaptResult
deriving DecidableEq

/-- The explicit wrong-field pairs (agent.py 1002-1010), in source order. -/
def mismatchPairs : List (String × String) :=
  [("assignee", "title"), ("assignee", "name"), ("assignee", "description"),
   ("title", "description"), ("title", "assignee"),
   ("description", "title"), ("description", "assignee")]

/-- The explicit-mismatch rejection test (agent.py 1012-1018): some pair
whose first component occurs in the original target and whose second occurs
in the suggested target. -/
def explicitMismatch (orig sl : List Char) : Bool :=
  mismatchPairs.any (fun p => containsL orig p.1.data && containsL sl p.2.data)

/-- The semantic-match test (agent.py 1020-1039): containment either way,
shared significant keyword, or one of the fixed synonym relationships. -/
def semanticallyMatches (orig sl : List Char) : Bool :=
  let kws := (splitWs orig).filter (fun w => decide (2 < w.length))
  containsL sl orig || containsL orig sl
    || kws.any (fun k => containsL sl k)
    || (orig = "assignee".data
        && (containsL sl "assign".data || containsL sl "user".data
            || containsL sl "owner".data))
    || (orig = "title".data
        && (containsL sl "title".data
            || (containsL sl "name".data && containsL sl "issue".data)))
    || (orig = "description".data
        && (containsL sl "description".data || containsL sl "body".data
            || containsL sl "content".data))

/-- The suggestion-validation state of `_adapt_plan_from_page`
(agent.py 985-1065). `oracle = none` models a failed oracle call (network,
parse or any other exception): the `except` branch only logs and the step
is left unchanged. Otherwise: honor `skip`, reject an empty target, reject
an explicit mismatch, then commit or skip on the semantic test. -/
def adaptValidate (stepAction stepTarget : String) (oracle : Option Suggestion) :
    AdaptResult :=
  match oracle with
  | none => AdaptResult.unchanged
  | some s =>
    if s.skip then AdaptResult.stepSkipped
    else
      let origL := stripWs (lcs stepTarget)
      let st := stripWs s.target.data
      if st.isEmpty then AdaptResult.stepSkipped
      else
        let sl := st.map Char.toLower
        if explicitMismatch origL sl then AdaptResult.stepSkipped
        else if semanticallyMatches origL sl then
          AdaptResult.committed (String.mk st)
            (if !s.suggestedAction.isEmpty && s.suggestedAction ≠ stepAction
             then s.suggestedAction else stepAction)
        else AdaptResult.stepSkipped

/-! ## Per-step retry loop (`AgentB.execute_task`, agent.py 87-117) -/

/-- Result of running one plan step through the retry loop:
`execAttempts` counts the `execute_step` invocations. -/
structure StepRun where
  execAttempts : Nat
  succeeded : Bool
deriving DecidableEq

/-- `max_retries = 2` (agent.py 88). -/
def maxRetries : Nat := 2

/-- The while-loop of agent.py 92-117, unrolled on explicit fuel (the loop
body runs at most `maxRetries + 1` times since `retry_count` grows on every
failing iteration). `attempt n` is whether the n-th `execute_step` call
succeeds; `altFound` is whether `_try_alternative_approach` succeeds on the
first retry. The final `else` branch re-raises the step's error. -/
def stepLoopGo (attempt : Nat → Bool) (altFound : Bool) :
    Nat → Nat → Nat → StepRun
  | 0, _, n => ⟨n, false⟩
  | fuel + 1, rc, n =>
    if rc ≤ maxRetries then
      if attempt n then ⟨n + 1, true⟩
      else if rc + 1 ≤ maxRetries then
        if rc + 1 = 1 && altFound then ⟨n + 1, true⟩
        else stepLoopGo attempt altFound fuel (rc + 1) (n + 1)
      else ⟨n + 1, false⟩
    else ⟨n, false⟩

/-- One full pass of the retry loop for a step. -/
def stepLoop (attempt : Nat → Bool) (altFound : Bool) : StepRun :=
  stepLoopGo attempt altFound (maxRetries + 1) 0 0

/-- The per-step behaviour oracle used by `runPlan`. -/
structure StepOracle where
  attempt : Nat → Bool
  altFound : Bool

/-- The step loop of agent.py 75-132: steps run in order; a step whose
retry loop fails re-raises, so no later step is executed. -/
def runPlan : List StepOracle → List StepRun
  | [] => []
  | o :: rest =>
    let r := stepLoop o.attempt o.altFound
    if r.succeeded then r :: runPlan rest else [r]

/-! ## Plan sanitizer (`AgentB._filter_login_steps` agent.py 1130-1173 and
`AgentB._filter_unmentioned_steps` agent.py 1175-1261) -/

/-- A plan step as consumed by the sanitizer. -/
structure PStep where
  description : String
  action : String
  target : String
  value : String
deriving DecidableEq

/-- A plan as consumed by the sanitizer. -/
structure Plan where
  app : String
  startingUrl : String
  steps : List PStep
deriving DecidableEq

/-- Login-intent keywords (agent.py 1136). -/
def loginKeywords : List String := ["login", "sign in", "signin", "authenticate", "log in"]

/-- `is_login_step` (agent.py 1146-1150). -/
def isLoginStep (s : PStep) : Bool :=
  let d := lcs s.description
  let t := lcs s.target
  let a := lcs s.action
  loginKeywords.any (fun k => containsL d k.data)
    || loginKeywords.any (fun k => containsL t k.data)
    || (a = "click".data && loginKeywords.any (fun k => containsL t k.data))

/-- Python `str.replace` (all non-overlapping occurrences, left to right),
on explicit fuel; the fuel never runs out for a non-empty pattern since at
least one character is consumed per step, and the sanitizer only uses the
non-empty patterns `/login` and `/signin`. -/
def replaceAllFuel (pat rep : List Char) : Nat → List Char → List Char
  | 0, l => l
  | _, [] => []
  | fuel + 1, c :: rest =>
    if !pat.isEmpty && isPrefL pat (c :: rest) then
      rep ++ replaceAllFuel pat rep fuel ((c :: rest).drop pat.length)
    else c :: replaceAllFuel pat rep fuel rest

/-- Python `s.replace(pat, rep)` for a non-empty pattern. -/
def replaceAll (pat rep l : List Char) : List Char := replaceAllFuel pat rep l.length l

/-- The startingUrl rewrite of `_filter_login_steps` (agent.py 1159-1171):
a login URL becomes the app's main page, or has `/login` / `/signin`
stripped for unknown apps. -/
def fixLoginUrl (p : Plan) : String :=
  let low := lcs p.startingUrl
  if containsL low "login".data || containsL low "signin".data then
    if lcs p.app = "linear".data then "https://linear.app/projects"
    else if lcs p.app = "notion".data then "https://www.notion.so"
    else String.mk (replaceAll "/signin".data []
      (replaceAll "/login".data [] p.startingUrl.data))
  else p.startingUrl

/-- `_filter_login_steps` (agent.py 1130-1173): early return on an empty
step list, otherwise drop login steps and rewrite a login startingUrl. -/
def filterLoginSteps (p : Plan) : Plan :=
  if p.steps.isEmpty then p
  else { p with steps := p.steps.filter (fun s => !isLoginStep s),
                startingUrl := fixLoginUrl p }

/-- The optional-field keyword table (agent.py 1186-1192). -/
def optionalStepKeywords : List (String × List String) :=
  [("assignee", ["assignee", "assign to", "assigned to", "user assignment",
                 "assigning to", "assign to user", "assign to a user"]),
   ("status", ["status", "set status", "change status"]),
   ("label", ["label", "labels", "add label", "tag"]),
   ("due date", ["due date", "due", "deadline"]),
   ("milestone", ["milestone"])]

/-- `task_mentions_user_assignment` (agent.py 1197-1206). -/
def taskMentionsUserAssignment (taskLower : List Char) : Bool :=
  (["assign to", "assign to a", "assign to user", "assign to me",
    "assignee", "assigned to", "user assignment"].map String.data).any
      (fun k => containsL taskLower k)
    && !((["assign it as", "assign as", "assign priority", "assign status"].map
          String.data).any (fun k => containsL taskLower k))

/-- `is_user_assignment_step` (agent.py 1220-1227). -/
def isUserAssignmentStep (d t v : List Char) : Bool :=
  containsL d "assignee".data || containsL t "assignee".data || containsL v "assignee".data
    || (containsL d "assign".data && containsL d "user".data)
    || (containsL t "assign".data && containsL t "user".data)
    || (containsL v "assign".data && containsL v "user".data)

/-- `is_about_field` for one optional field (agent.py 1240-1247). -/
def stepAboutField (d t v : List Char) (field : String) (kws : List String) : Bool :=
  containsL d field.data || containsL t field.data || containsL v field.data
    || kws.any (fun k => containsL d k.data)
    || kws.any (fun k => containsL t k.data)
    || kws.any (fun k => containsL v k.data)

/-- The per-step keep decision of `_filter_unmentioned_steps`
(agent.py 1208-1258): the assignee special case first, then the generic
optional-field loop (which skips the assignee entry). -/
def keepStepUnmentioned (taskLower : List Char) (s : PStep) : Bool :=
  let d := lcs s.description
  let t := lcs s.target
  let v := lcs s.value
  if (containsL d "assignee".data || containsL t "assignee".data
        || containsL v "assignee".data)
      && isUserAssignmentStep d t v
      && !taskMentionsUserAssignment taskLower then false
  else
    !(optionalStepKeywords.any (fun fk =>
        !(fk.1 = "assignee")
          && stepAboutField d t v fk.1 fk.2
          && !(fk.2.any (fun k => containsL taskLower k.data))))

/-- `_filter_unmentioned_steps` (agent.py 1175-1261). -/
def filterUnmentionedSteps (p : Plan) (taskQuery : String) : Plan :=
  if p.steps.isEmpty then p
  else { p with steps := p.steps.filter (keepStepUnmentioned (lcs taskQuery)) }

/-- The full Plan Sanitizer as applied in `understand_task`
(agent.py 709-713): login-step removal, then unmentioned-step removal. -/
def sanitizePlan (p : Plan) (taskQuery : String) : Plan :=
  filterUnmentionedSteps (filterLoginSteps p) taskQuery

/-! ## Screenshot capture (`ScreenshotCapture` screenshot.py 21-106) and the
captured-states bookkeeping of `AgentB` (agent.py 78-126, 1094-1104) -/

/-- `_should_skip_capture` (screenshot.py 21-56). -/
def shouldSkipCapture (description captureType : String) : Bool :=
  let d := lcs description
  if captureType = "final" || containsL d "final".data then false
  else if containsL d "login".data || captureType = "after-login" then false
  else if (["discover", "find", "extract", "identify", "locate", "search",
            "wait", "check", "verify", "read", "examine"].map String.data).any
           (fun k => containsL d k) then
    !((["click", "type", "select", "submit", "navigate"].map String.data).any
        (fun a => containsL d a))
  else false

/-- The screenshot record returned by `capture` (screenshot.py 99-106),
without the filesystem path and wall-clock timestamp. -/
structure CaptureRecord where
  name : String
  description : String
  captureType : String
  counter : Nat
deriving DecidableEq

/-- `ScreenshotCapture.capture` (screenshot.py 58-106): `none` when the
capture is skipped, otherwise a record and the incremented counter. The
name field is modelled without the sanitized-description suffix, which only
affects file naming. -/
def capture (counter : Nat) (description captureType : String) :
    Option CaptureRecord × Nat :=
  if shouldSkipCapture description captureType then (none, counter)
  else (some ⟨captureType, description, captureType, counter + 1⟩, counter + 1)

/-- The agent appends every capture result to `captured_states` unchanged
(agent.py 80-85, 121-126, 135-140). -/
def appendCaptured (l : List (Option CaptureRecord)) (s : Option CaptureRecord) :
    List (Option CaptureRecord) :=
  l ++ [s]

/-- The reported `capturedStates` count, `len(self.captured_states)`
(agent.py 151): it counts `None` entries like any other. -/
def capturedStatesCount (l : List (Option CaptureRecord)) : Nat := l.length

/-- The screenshot-saving loop of `save_dataset` (agent.py 1100-1104):
each state's fields are dereferenced (`state["name"]`, `state["path"]`), so
a `None` entry raises; modelled as `none`. -/
def saveDataset : List (Option CaptureRecord) → Option (List CaptureRecord)
  | [] => some []
  | none :: _ => none
  | some r :: rest => (saveDataset rest).map (fun l => r :: l)

/-! ## Helper lemmas -/

theorem mem_insertByGe {ge : α → α → Bool} {x a : α} :
    ∀ {l : List α}, a ∈ insertByGe ge x l → a = x ∨ a ∈ l := by
  intro l h
  induction l with
  | nil =>
    simp only [insertByGe, List.mem_singleton] at h
    exact Or.inl h
  | cons y ys ih =>
    rw [insertByGe] at h
    by_cases hge : ge x y
    · rw [if_pos hge] at h
      rcases List.mem_cons.mp h with h1 | h2
      · exact Or.inl h1
      · exact Or.inr h2
    · rw [if_neg hge] at h
      rcases List.mem_cons.mp h with h1 | h2
      · exact Or.inr (h1 ▸ List.mem_cons_self y ys)
      · rcases ih h2 with h3 | h4
        · exact Or.inl h3
        · exact Or.inr (List.mem_cons_of_mem y h4)

theorem mem_sortByGe {ge : α → α → Bool} {a : α} :
    ∀ {l : List α}, a ∈ sortByGe ge l → a ∈ l := by
  intro l h
  induction l with
  | nil => simp [sortByGe] at h
  | cons y ys ih =>
    have h2 : a ∈ insertByGe ge y (sortByGe ge ys) := h
    rcases mem_insertByGe h2 with h3 | h4
    · exact h3 ▸ List.mem_cons_self y ys
    · exact List.mem_cons_of_mem y (ih h4)

theorem insertByGe_of_all_lt {ge : α → α → Bool} {x : α} :
    ∀ {l : List α}, (∀ y ∈ l, ge x y = false) → insertByGe ge x l = l ++ [x] := by
  intro l h
  induction l with
  | nil => rfl
  | cons y ys ih =>
    have hy : ge x y = false := h y (List.mem_cons_self y ys)
    rw [insertByGe, if_neg (by simp [hy]),
      ih (fun z hz => h z (List.mem_cons_of_mem y hz))]
    rfl

theorem sortByGe_eq_reverse {ge : α → α → Bool} :
    ∀ {l : List α}, l.Pairwise (fun a b => ge a b = false) → sortByGe ge l = l.reverse := by
  intro l h
  induction l with
  | nil => rfl
  | cons x xs ih =>
    have hx : ∀ y ∈ xs, ge x y = false := (List.pairwise_cons.mp h).1
    have hxs := ih (List.pairwise_cons.mp h).2
    have h1 : sortByGe ge (x :: xs) = insertByGe ge x (sortByGe ge xs) := rfl
    rw [h1, hxs, insertByGe_of_all_lt, List.reverse_cons]
    exact fun y hy => hx y (List.mem_reverse.mp hy)

theorem mem_withIdx {a : α × Nat} :
    ∀ {l : List α} {n : Nat}, a ∈ withIdx l n → a.1 ∈ l := by
  intro l
  induction l with
  | nil => intro n h; simp [withIdx] at h
  | cons x xs ih =>
    intro n h
    rw [withIdx] at h
    rcases List.mem_cons.mp h with h1 | h2
    · rw [h1]; exact List.mem_cons_self x xs
    · exact List.mem_cons_of_mem x (ih h2)

theorem withIdx_le {l : List α} :
    ∀ {n : Nat} {p : α × Nat}, p ∈ withIdx l n → n ≤ p.2 := by
  induction l with
  | nil => intro n p h; simp [withIdx] at h
  | cons x xs ih =>
    intro n p h
    rw [withIdx] at h
    rcases List.mem_cons.mp h with h1 | h2
    · rw [h1]
    · exact Nat.le_of_succ_le (ih h2)

theorem pairwise_withIdx (l : List α) :
    ∀ n : Nat, (withIdx l n).Pairwise (fun p q => p.2 < q.2) := by
  induction l with
  | nil => intro n; exact List.Pairwise.nil
  | cons x xs ih =>
    intro n
    rw [withIdx]
    refine List.pairwise_cons.mpr ⟨?_, ih (n + 1)⟩
    intro q hq
    exact Nat.lt_of_lt_of_le (Nat.lt_succ_self n) (withIdx_le hq)

theorem topTied_pairwise (sorted : List (Btn × Int)) :
    (topTied sorted).Pairwise (fun p q => p.2 < q.2) := by
  cases sorted with
  | nil => exact List.Pairwise.nil
  | cons h t =>
    exact List.Pairwise.sublist (List.filter_sublist _) (pairwise_withIdx (h :: t) 0)

theorem mem_topTied {q : (Btn × Int) × Nat} {sorted : List (Btn × Int)}
    (h : q ∈ topTied sorted) : q.1 ∈ sorted := by
  cases sorted with
  | nil => simp [topTied] at h
  | cons x t =>
    simp only [topTied] at h
    exact mem_withIdx (List.mem_of_mem_filter h)

theorem mem_nonTop {p : Btn × Int} {sorted : List (Btn × Int)}
    (h : p ∈ nonTop sorted) : p ∈ sorted := by
  cases sorted with
  | nil => simp [nonTop] at h
  | cons x t =>
    simp only [nonTop] at h
    exact List.mem_of_mem_filter h

theorem mem_tieBreakPass {sel : List Char} {p : Btn × Int} {sorted : List (Btn × Int)}
    (h : p ∈ tieBreakPass sel sorted) : p ∈ sorted := by
  unfold tieBreakPass at h
  by_cases hl : 1 < (topTied sorted).length
  · rw [if_pos hl] at h
    rcases List.mem_append.mp h with h1 | h2
    · obtain ⟨q, hq, hq2⟩ := List.mem_map.mp h1
      exact hq2 ▸ mem_topTied (mem_sortByGe hq)
    · exact mem_nonTop h2
  · rwa [if_neg hl] at h

theorem mem_rankButtons {isAria : Bool} {sel : List Char} {btns : List Btn}
    {p : Btn × Int} (h : p ∈ rankButtons isAria sel btns) :
    ∃ s : Int, scoreButton isAria sel p.1 = some s := by
  unfold rankButtons at h
  by_cases hl : 1 < (btns.filterMap
      (fun b => (scoreButton isAria sel b).map (fun s => (b, s)))).length
  · rw [if_pos hl] at h
    have h2 := mem_sortByGe (mem_tieBreakPass h)
    obtain ⟨q, hq, hq2⟩ := List.mem_map.mp h2
    obtain ⟨b, _, hb2⟩ := List.mem_filterMap.mp hq
    obtain ⟨s, hs, hs2⟩ := Option.map_eq_some'.mp hb2
    refine ⟨s, ?_⟩
    have hqb : q.1 = b := by rw [← hs2]
    have hpb : p.1 = q.1 := by rw [← hq2]
    rw [hpb, hqb]
    exact hs
  · rw [if_neg hl] at h
    obtain ⟨b, _, hb2⟩ := List.mem_filterMap.mp h
    obtain ⟨s, hs, hs2⟩ := Option.map_eq_some'.mp hb2
    refine ⟨s, ?_⟩
    have hpb : p.1 = b := by rw [← hs2]
    rw [hpb]
    exact hs

theorem clickSelect_scored {isAria : Bool} {sel : List Char} {btns : List Btn}
    {b : Btn} (h : clickSelect isAria sel btns = some b) :
    ∃ s : Int, scoreButton isAria sel b = some s := by
  unfold clickSelect at h
  cases hrank : rankButtons isAria sel btns with
  | nil => rw [hrank] at h; exact absurd h (by simp [clickPick])
  | cons best rest =>
    rw [hrank] at h
    simp only [clickPick] at h
    by_cases hm : btnHasMore best.1
    · rw [if_pos hm] at h
      cases hfind : rest.find? (fun p => !btnHasMore p.1) with
      | some alt =>
        rw [hfind] at h
        have halt : alt ∈ rankButtons isAria sel btns := by
          rw [hrank]
          exact List.mem_cons_of_mem best (List.mem_of_find?_eq_some hfind)
        have hb : b = alt.1 := by simpa using h.symm
        exact hb ▸ mem_rankButtons halt
      | none =>
        rw [hfind] at h
        have hbest : best ∈ rankButtons isAria sel btns := by
          rw [hrank]; exact List.mem_cons_self best rest
        have hb : b = best.1 := by simpa using h.symm
        exact hb ▸ mem_rankButtons hbest
    · rw [if_neg hm] at h
      have hbest : best ∈ rankButtons isAria sel btns := by
        rw [hrank]; exact List.mem_cons_self best rest
      have hb : b = best.1 := by simpa using h.symm
      exact hb ▸ mem_rankButtons hbest

theorem scoreButton_not_disqualified {isAria : Bool} {sel : List Char} {b : Btn}
    {s : Int} (h : scoreButton isAria sel b = some s) :
    b.visible = true
      ∧ (b.tagName = "input" && (b.typeAttr = "checkbox" || b.typeAttr = "radio")) = false
      ∧ btnDisqualified b = false := by
  unfold scoreButton at h
  by_cases h1 : (!b.visible : Bool)
  · rw [if_pos h1] at h; exact absurd h (by simp)
  · rw [if_neg h1] at h
    by_cases h2 : (b.tagName = "input" && (b.typeAttr = "checkbox" || b.typeAttr = "radio") : Bool)
    · rw [if_pos h2] at h; exact absurd h (by simp)
    · rw [if_neg h2] at h
      by_cases h3 : btnDisqualified b
      · rw [if_pos h3] at h; exact absurd h (by simp)
      · refine ⟨?_, ?_, ?_⟩
        · simpa using h1
        · simpa using h2
        · simpa using h3

/-! ## Claim C1 -/

/-- The claim's notion of a disqualified click candidate, following the
spec's words for comparison with the code: a label of at most 3 words
containing "more", an identifier or class containing "toggle" or "more",
or a checkbox/switch-styled control. -/
def specClickDisqualified (b : Btn) : Bool :=
  (containsL (btnTextLower b) "more".data
      && decide ((splitWs (btnTextLower b)).length ≤ 3))
    || (containsL (btnAriaLower b) "more".data
        && decide ((splitWs (btnAriaLower b)).length ≤ 3))
    || containsL (lcs b.btnId) "toggle".data || containsL (lcs b.btnId) "more".data
    || containsL (lcs b.btnClass) "toggle".data || containsL (lcs b.btnClass) "more".data
    || containsL (lcs b.btnClass) "checkbox".data || containsL (lcs b.btnClass) "switch".data
    || (b.tagName = "input" && (b.typeAttr = "checkbox" || b.typeAttr = "radio"))

/-- A class-styled toggle button: exact text match, submit type, in a form. -/
def c1ToggleBtn : Btn :=
  ⟨"button", "submit", true, "create", "", "", "toggle-btn", true, true⟩

/-- A clean alternative whose base score is exactly 40 (containment tier). -/
def c1PlainBtn : Btn :=
  ⟨"button", "", true, "recreate", "", "", "", false, false⟩

/-- C1 counterexample: for the target "create", the candidate whose class
contains "toggle" — disqualified in the claim's sense — is selected as the
top match even though a non-disqualified candidate with base score exactly
40 is present. The code only excludes id-based toggle markers and
checkbox/radio inputs outright; class markers merely cost −100. -/
theorem c1_counterexample :
    specClickDisqualified c1ToggleBtn = true
      ∧ specClickDisqualified c1PlainBtn = false
      ∧ textMatchBase "create".data (btnTextLower c1PlainBtn) (btnAriaLower c1PlainBtn)
          = some 40
      ∧ clickSelect false "create".data [c1ToggleBtn, c1PlainBtn] = some c1ToggleBtn := by
  refine ⟨by decide, by decide, by decide, by decide⟩

/-- C1 (amended): the candidates the code does exclude outright from the
action-button pool — invisible elements, checkbox/radio inputs, short
"more" labels and id-based toggle markers — can never be returned by the
click-resolution scoring pass, whatever the candidate set; class-based
toggle/checkbox/switch styling is only penalized, not excluded. -/
theorem c1_prop (isAria : Bool) (sel : List Char) (btns : List Btn) (b : Btn)
    (h : clickSelect isAria sel btns = some b) :
    b.visible = true
      ∧ (b.tagName = "input" && (b.typeAttr = "checkbox" || b.typeAttr = "radio")) = false
      ∧ btnDisqualified b = false := by
  obtain ⟨s, hs⟩ := clickSelect_scored h
  exact scoreButton_not_disqualified hs

/-- Witness for `c1_prop` at a concrete candidate set. -/
theorem c1_witness :
    c1ToggleBtn.visible = true
      ∧ (c1ToggleBtn.tagName = "input"
          && (c1ToggleBtn.typeAttr = "checkbox" || c1ToggleBtn.typeAttr = "radio")) = false
      ∧ btnDisqualified c1ToggleBtn = false :=
  c1_prop false "create".data [c1ToggleBtn, c1PlainBtn] c1ToggleBtn (by decide)

/-! ## Claim C2 -/

/-- C2 counterexample: the claim's pair "assignee vs. name" read in the
name-to-assignee direction is not covered by the coded pair list
(agent.py 1002-1010 has no ("name", "assignee") entry): for the original
target "name" an oracle suggestion "assignee name" passes the explicit
check, then the keyword test ("name" occurs in the suggestion) commits the
suggestion as the step's new target instead of rejecting it. -/
theorem c2_counterexample :
    containsL (lcs "name") "name".data = true
      ∧ containsL (lcs "assignee name") "assignee".data = true
      ∧ adaptValidate "type" "name" (some ⟨false, "assignee name", ""⟩)
          = AdaptResult.committed "assignee name" "type" := by
  refine ⟨by decide, by decide, by decide⟩

/-- C2 (amended): for the seven coded mismatch pairs — assignee→title,
assignee→name, assignee→description, title→description, title→assignee,
description→title, description→assignee — the validation step always
rejects the suggestion and marks the step skipped; only the omitted
name→assignee direction can be committed. -/
theorem c2_prop (act targ : String) (s : Suggestion)
    (h : explicitMismatch (stripWs (lcs targ))
          ((stripWs s.target.data).map Char.toLower) = true) :
    adaptValidate act targ (some s) = AdaptResult.stepSkipped := by
  unfold adaptValidate
  by_cases hs : s.skip
  · simp [hs]
  · simp only [hs, Bool.false_eq_true, if_false]
    by_cases he : (stripWs s.target.data).isEmpty
    · simp [he]
    · simp [he, h]

/-- Witness for `c2_prop`: assignee→title is always rejected. -/
theorem c2_witness :
    adaptValidate "type" "Assignee" (some ⟨false, "Title field", ""⟩)
      = AdaptResult.stepSkipped :=
  c2_prop "type" "Assignee" ⟨false, "Title field", ""⟩ (by decide)

/-! ## Claim C3 -/

/-- An input whose only content is a generic placeholder, unrelated to any
target: name, id and aria-label are empty. -/
def c3GenericInput : InputEl := ⟨true, "", "enter text here", "", "", ""⟩

/-- C3 counterexample: resolving the type target "assignee" on a page whose
only input matches it by no attribute at all does not fail with the
"no match" error — the Strategy 7 fallback fills the input anyway, because
its placeholder contains the generic word "text" (navigator.py 1053-1055).
So the executor does fall back to a visible element that did not match the
target description. -/
theorem c3_counterexample :
    inputAttrMatches "assignee".data c3GenericInput = false
      ∧ strategy7Pick "assignee".data [] [c3GenericInput] = some c3GenericInput
      ∧ typeFinalOutcome "assignee".data [] [c3GenericInput]
          = Except.ok c3GenericInput := by
  refine ⟨by decide, by decide, rfl⟩

/-- C3 (amended): the click fallback conforms to the claim — an element is
clicked only if one of its attributes contains the selector text, and the
"Failed to click element" error is raised otherwise. The type fallback
raises "Failed to type into element" only when no input qualifies, but the
input it fills need only be visible, empty and either attribute-matching,
generically-placeholdered, or arbitrary when the cleaned selector is
empty. -/
theorem c3_prop :
    (∀ (cs : String) (els : List AttrEl) (e : AttrEl),
        clickFallbackOutcome cs els = Except.ok e →
          (containsL e.ariaLabelAttr.data cs.data
            || containsL e.dataTestid.data (lcs cs)
            || containsL e.titleAttr.data cs.data) = true)
      ∧ (∀ (sel : List Char) (mi pg : List InputEl) (e : InputEl),
          typeFinalOutcome sel mi pg = Except.ok e →
            e.visible = true ∧ e.value.isEmpty = true
              ∧ (inputCtxMatches sel e || sel.isEmpty) = true)
      ∧ (∀ (cs : String) (els : List AttrEl),
          clickAttrFallback cs els = none →
            clickFallbackOutcome cs els = Except.error "Failed to click element")
      ∧ (∀ (sel : List Char) (mi pg : List InputEl),
          strategy7Pick sel mi pg = none →
            typeFinalOutcome sel mi pg = Except.error "Failed to type into element") := by
  refine ⟨?_, ?_, ?_, ?_⟩
  · intro cs els e h
    have hfb : clickAttrFallback cs els = some e := by
      unfold clickFallbackOutcome at h
      cases hq : clickAttrFallback cs els with
      | some x => rw [hq] at h; simpa using h
      | none => rw [hq] at h; exact absurd h (by simp)
    unfold clickAttrFallback at hfb
    have hmem : ∀ {os : List (Option AttrEl)} {x : AttrEl},
        firstVisibleHit os = some x → ∃ o ∈ os, o = some x := by
      intro os
      induction os with
      | nil => intro x hx; simp [firstVisibleHit] at hx
      | cons o rest ih =>
        intro x hx
        cases o with
        | none =>
          obtain ⟨o2, ho2, ho3⟩ := ih hx
          exact ⟨o2, List.mem_cons_of_mem _ ho2, ho3⟩
        | some y =>
          rw [firstVisibleHit] at hx
          by_cases hv : y.visible
          · rw [if_pos hv] at hx
            exact ⟨some y, List.mem_cons_self _ _, hx⟩
          · rw [if_neg hv] at hx
            obtain ⟨o2, ho2, ho3⟩ := ih hx
            exact ⟨o2, List.mem_cons_of_mem _ ho2, ho3⟩
    obtain ⟨o, ho, ho2⟩ := hmem hfb
    simp only [List.mem_cons, List.not_mem_nil, or_false] at ho
    rcases ho with h1 | h2 | h3 | h4
    · have := List.find?_some (h1 ▸ ho2)
      simp only [this, Bool.true_or]
    · have := List.find?_some (h2 ▸ ho2)
      simp [this]
    · have := List.find?_some (h3 ▸ ho2)
      simp [this]
    · have h5 := List.find?_some (h4 ▸ ho2)
      have h6 : containsL e.ariaLabelAttr.data cs.data = true := by
        rcases Bool.and_eq_true_iff.mp h5 with ⟨_, hb⟩
        exact hb
      simp [h6]
  · intro sel mi pg e h
    have hp : strategy7Pick sel mi pg = some e := by
      unfold typeFinalOutcome at h
      cases hq : strategy7Pick sel mi pg with
      | some x => rw [hq] at h; simpa using h
      | none => rw [hq] at h; exact absurd h (by simp)
    unfold strategy7Pick at hp
    have h2 := List.find?_some hp
    rcases Bool.and_eq_true_iff.mp h2 with ⟨h3, h4⟩
    rcases Bool.and_eq_true_iff.mp h3 with ⟨h5, h6⟩
    exact ⟨h5, h6, h4⟩
  · intro cs els h
    unfold clickFallbackOutcome
    rw [h]
  · intro sel mi pg h
    unfold typeFinalOutcome
    rw [h]

/-- Witness for `c3_prop`: one click-side application and one type-side
application at concrete inputs. -/
theorem c3_witness :
    (containsL (AttrEl.mk true "Create issue" "" "" true).ariaLabelAttr.data
        ("Create".data)
      || containsL (AttrEl.mk true "Create issue" "" "" true).dataTestid.data
          (lcs "Create")
      || containsL (AttrEl.mk true "Create issue" "" "" true).titleAttr.data
          ("Create".data)) = true
      ∧ typeFinalOutcome "assignee".data [] []
          = Except.error "Failed to type into element" :=
  ⟨c3_prop.1 "Create" [AttrEl.mk true "Create issue" "" "" true]
      (AttrEl.mk true "Create issue" "" "" true) rfl,
   c3_prop.2.2.2 "assignee".data [] [] (by decide)⟩

/-! ## Claim C4 -/

theorem ceBase_le_1000 {sel aria ceId ph : List Char} {b : Int}
    (h : ceBase sel aria ceId ph = some b) : b ≤ 1000 := by
  unfold ceBase at h
  split_ifs at h <;> simp_all <;> omega

/-- An exactly-labelled field already holding different text. -/
def c4FilledField : CEField := ⟨true, "Title", "", "", "Draft text"⟩

/-- An empty field whose only match is its generic placeholder (tier 200,
the weakest match). -/
def c4EmptyField : CEField := ⟨true, "", "", "enter title here", ""⟩

/-- C4 counterexample: for the type target "title" with text "my task", the
already-filled exactly-labelled field scores 1000 − 500 = 500, strictly
ABOVE the empty placeholder-matched field's 200 + 200 = 400, and the
engine selects the filled field — refuting "a filled-different field
scores strictly lower than any empty field with an equal-or-weaker
match". -/
theorem c4_counterexample :
    ceScore false "title".data "my task".data c4FilledField = some 500
      ∧ ceScore false "title".data "my task".data c4EmptyField = some 400
      ∧ ceSelect false "title".data "my task".data [c4FilledField, c4EmptyField]
          = some c4FilledField := by
  refine ⟨by decide, by decide, by decide⟩

/-- C4 (amended): the +200 empty bonus and −500 filled-with-different-text
penalty are as claimed, and the strict comparison does hold whenever the
empty field's base tier is at least 400 — that is, whenever both fields
match via the accessible label (tiers 1000/800/600/500/400). It fails only
when the empty field matches merely by element id (300) or placeholder
(200). -/
theorem c4_prop (m : Bool) (sel txt : List Char) (F E : CEField) (bF bE : Int)
    (hFv : F.visible = true) (hEv : E.visible = true)
    (hbF : ceBase sel ((stripWs F.ariaLabelAttr.data).map Char.toLower)
        (lcs F.idAttr) (lcs F.placeholderAttr) = some bF)
    (hbE : ceBase sel ((stripWs E.ariaLabelAttr.data).map Char.toLower)
        (lcs E.idAttr) (lcs E.placeholderAttr) = some bE)
    (_hle : bE ≤ bF) (h400 : 400 ≤ bE)
    (hFfilled : (stripWs F.textContent.data).isEmpty = false)
    (hFdiff : ¬((stripWs F.textContent.data).map Char.toLower = txt.map Char.toLower))
    (hEempty : (stripWs E.textContent.data).isEmpty = true) :
    ceScore m sel txt F = some (bF - 500 + (if m then 100 else 0))
      ∧ ceScore m sel txt E = some (bE + 200 + (if m then 100 else 0))
      ∧ bF - 500 + (if m then 100 else 0) < bE + 200 + (if m then 100 else 0) := by
  have hcap := ceBase_le_1000 hbF
  refine ⟨?_, ?_, ?_⟩
  · unfold ceScore
    rw [if_neg (by simp [hFv])]
    simp only [hbF]
    rw [if_neg (by simp [hFfilled]), if_pos (by simp [hFdiff])]
    ring_nf
  · unfold ceScore
    rw [if_neg (by simp [hEv])]
    simp only [hbE]
    rw [if_pos hEempty]
  · split_ifs <;> omega

/-- Witness for `c4_prop`: exact-labelled filled field against a
word-boundary-labelled empty field. -/
theorem c4_witness :
    ceScore false "title".data "my task".data (CEField.mk true "Title" "" "" "Other")
        = some (1000 - 500 + (if false then 100 else 0))
      ∧ ceScore false "title".data "my task".data (CEField.mk true "Issue title" "" "" "")
          = some (800 + 200 + (if false then 100 else 0))
      ∧ (1000 : Int) - 500 + (if false then 100 else 0)
          < 800 + 200 + (if false then 100 else 0) :=
  c4_prop false "title".data "my task".data
    (CEField.mk true "Title" "" "" "Other") (CEField.mk true "Issue title" "" "" "")
    1000 800 rfl rfl (by decide) (by decide) (by decide) (by decide)
    (by decide) (by decide) (by decide)

/-! ## Claim C5 -/

/-- The claim's tier table for text targets, following the spec's words for
comparison with the code: identical to `textMatchBase` except that the
40-point containment tier is bidirectional. -/
def specTextMatchBase (sel text aria : List Char) : Option Int :=
  if sel = text || sel = aria then some 100
  else if isPrefL (sel ++ [' ']) text then some 80
  else if isPrefL sel text then some 60
  else if shareSignificantWords sel text || shareSignificantWords sel aria then some 50
  else if containsL text sel || containsL sel text
      || containsL aria sel || containsL sel aria then some 40
  else none

/-- C5 counterexample: for the text target "create new issue", a candidate
whose visible text "ew" is a substring of the target (reverse-direction
containment) is claimed to get base 40, but the code checks only
selector-in-candidate containment (navigator.py 438) and drops the
candidate entirely. -/
theorem c5_counterexample :
    containsL "create new issue".data "ew".data = true
      ∧ specTextMatchBase "create new issue".data "ew".data [] = some 40
      ∧ textMatchBase "create new issue".data "ew".data [] = none := by
  refine ⟨by decide, by decide, by decide⟩

/-- C5 (amended): the base score is assigned by the first matching tier —
100 exact, 80 whole-leading-word, 60 bare leading match, 50 shared
significant words, 40 containment — and an unmatched candidate is dropped;
but for text targets the 40 tier only tests the target inside the
candidate's text or accessible label, never the reverse, while
accessible-label-selector targets use bases 100/80/75/60/40 with
bidirectional containment. -/
theorem c5_prop (sel text aria : List Char) :
    (((sel = text || sel = aria : Bool) = true) →
        textMatchBase sel text aria = some 100)
      ∧ (((sel = text || sel = aria : Bool) = false) →
          isPrefL (sel ++ [' ']) text = true →
          textMatchBase sel text aria = some 80)
      ∧ (((sel = text || sel = aria : Bool) = false) →
          isPrefL (sel ++ [' ']) text = false → isPrefL sel text = true →
          textMatchBase sel text aria = some 60)
      ∧ (((sel = text || sel = aria : Bool) = false) →
          isPrefL (sel ++ [' ']) text = false → isPrefL sel text = false →
          (shareSignificantWords sel text || shareSignificantWords sel aria) = true →
          textMatchBase sel text aria = some 50)
      ∧ (((sel = text || sel = aria : Bool) = false) →
          isPrefL (sel ++ [' ']) text = false → isPrefL sel text = false →
          (shareSignificantWords sel text || shareSignificantWords sel aria) = false →
          (containsL text sel || containsL aria sel) = true →
          textMatchBase sel text aria = some 40)
      ∧ (((sel = text || sel = aria : Bool) = false) →
          isPrefL (sel ++ [' ']) text = false → isPrefL sel text = false →
          (shareSignificantWords sel text || shareSignificantWords sel aria) = false →
          (containsL text sel || containsL aria sel) = false →
          textMatchBase sel text aria = none)
      ∧ (((sel = aria : Bool) = true) → ariaMatchBase sel aria = some 100)
      ∧ (((sel = aria : Bool) = false) → isPrefL sel aria = true →
          ariaMatchBase sel aria = some 80)
      ∧ (((sel = aria : Bool) = false) → isPrefL sel aria = false →
          isPrefL aria sel = true → ariaMatchBase sel aria = some 75)
      ∧ (((sel = aria : Bool) = false) → isPrefL sel aria = false →
          isPrefL aria sel = false → shareSignificantWords sel aria = true →
          ariaMatchBase sel aria = some 60)
      ∧ (((sel = aria : Bool) = false) → isPrefL sel aria = false →
          isPrefL aria sel = false → shareSignificantWords sel aria = false →
          (containsL aria sel || containsL sel aria) = true →
          ariaMatchBase sel aria = some 40)
      ∧ (((sel = aria : Bool) = false) → isPrefL sel aria = false →
          isPrefL aria sel = false → shareSignificantWords sel aria = false →
          (containsL aria sel || containsL sel aria) = false →
          ariaMatchBase sel aria = none) := by
  refine ⟨?_, ?_, ?_, ?_, ?_, ?_, ?_, ?_, ?_, ?_, ?_, ?_⟩ <;>
    · intros
      simp_all [textMatchBase, ariaMatchBase]

/-- Witness for `c5_prop`: the 40-point tier at a concrete input. -/
theorem c5_witness :
    textMatchBase "create".data "recreate".data [] = some 40 :=
  (c5_prop "create".data "recreate".data []).2.2.2.2.1
    (by decide) (by decide) (by decide) (by decide) (by decide)

/-! ## Claim C6 -/

theorem stepLoop_attempts (attempt : Nat → Bool) (alt : Bool) :
    (stepLoop attempt alt).execAttempts ≤ 3
      ∧ ((stepLoop attempt alt).succeeded = false →
          (stepLoop attempt alt).execAttempts = 3) := by
  unfold stepLoop
  cases h0 : attempt 0 <;> cases h1 : attempt 1 <;> cases h2 : attempt 2 <;>
    cases ha : alt <;>
      simp [stepLoopGo, maxRetries, h0, h1, h2, ha]

theorem runPlan_prefix_succeeded :
    ∀ os : List StepOracle, ∀ r ∈ (runPlan os).dropLast, r.succeeded = true := by
  intro os
  induction os with
  | nil => intro r hr; simp [runPlan] at hr
  | cons o rest ih =>
    intro r hr
    rw [runPlan] at hr
    by_cases hs : (stepLoop o.attempt o.altFound).succeeded
    · rw [if_pos hs] at hr
      cases hrest : runPlan rest with
      | nil => rw [hrest] at hr; simp at hr
      | cons x t =>
        rw [hrest] at hr
        rw [List.dropLast_cons_of_ne_nil (by simp)] at hr
        rcases List.mem_cons.mp hr with h1 | h2
        · exact h1 ▸ hs
        · exact ih r (hrest ▸ h2)
    · rw [if_neg hs] at hr
      simp at hr

/-- C6: every step makes at most 3 `execute_step` attempts; a step that
ends in failure used exactly 3 (2 retries); and in a full plan run every
step except possibly the last executed one succeeded — a failure aborts
the remaining steps. -/
theorem c6_prop (os : List StepOracle) :
    (∀ r ∈ runPlan os,
        r.execAttempts ≤ 3 ∧ (r.succeeded = false → r.execAttempts = 3))
      ∧ (∀ r ∈ (runPlan os).dropLast, r.succeeded = true) := by
  refine ⟨?_, runPlan_prefix_succeeded os⟩
  intro r hr
  induction os with
  | nil => simp [runPlan] at hr
  | cons o rest ih =>
    rw [runPlan] at hr
    by_cases hs : (stepLoop o.attempt o.altFound).succeeded
    · rw [if_pos hs] at hr
      rcases List.mem_cons.mp hr with h1 | h2
      · exact h1 ▸ stepLoop_attempts o.attempt o.altFound
      · exact ih h2
    · rw [if_neg hs] at hr
      rcases List.mem_cons.mp hr with h1 | h2
      · exact h1 ▸ stepLoop_attempts o.attempt o.altFound
      · simp at h2

/-- Witness for `c6_prop`: a plan whose single step always fails uses
exactly 3 attempts and fails. -/
theorem c6_witness :
    (StepRun.mk 3 false).execAttempts ≤ 3
      ∧ ((StepRun.mk 3 false).succeeded = false →
          (StepRun.mk 3 false).execAttempts = 3) :=
  (c6_prop [StepOracle.mk (fun _ => false) false]).1 (StepRun.mk 3 false)
    (by simp [runPlan, stepLoop, stepLoopGo, maxRetries])

/-! ## Claim C7 -/

/-- C7 counterexample: a failed repair-oracle call (the `except` branch of
`_adapt_plan_from_page`, agent.py 1062-1065) does not transition the step
to Skipped — the step is left unchanged, and the retry loop then either
retries it or fails it. -/
theorem c7_counterexample :
    adaptValidate "type" "title" none = AdaptResult.unchanged
      ∧ adaptValidate "type" "title" none ≠ AdaptResult.stepSkipped := by
  refine ⟨by decide, by decide⟩

/-- C7 (amended): a failed oracle call is caught and ignored — the step is
left unchanged for every target, not moved to Skipped — and a step whose
attempts keep failing (with the oracle unavailable) ends in failure after
its 3 attempts rather than being skipped. -/
theorem c7_prop (act targ : String) :
    adaptValidate act targ none = AdaptResult.unchanged
      ∧ (stepLoop (fun _ => false) false).succeeded = false
      ∧ (stepLoop (fun _ => false) false).execAttempts = 3 := by
  refine ⟨rfl, by decide, by decide⟩

/-! ## Claim C8 -/

/-- First of two identical-text tied candidates (id "alpha"). -/
def c8FirstBtn : Btn := ⟨"button", "", true, "create issue", "", "alpha", "", false, false⟩

/-- Second of two identical-text tied candidates (id "beta"). -/
def c8SecondBtn : Btn := ⟨"button", "", true, "create issue", "", "beta", "", false, false⟩

/-- C8 evaluation at the failing input: both candidates score 200 and share
the same secondary semantic score 60, yet the engine ranks the
later-discovered candidate first and clicks it — the tied re-sort uses
`reverse=True` on the key `(semantic score, position)` (navigator.py 597),
which REVERSES discovery order among equal secondary scores, contradicting
the code's own comment ("then by original order") and the claim. -/
theorem c8_prop :
    semanticTiebreaker "create".data c8FirstBtn
        = semanticTiebreaker "create".data c8SecondBtn
      ∧ rankButtons false "create".data [c8FirstBtn, c8SecondBtn]
          = [(c8SecondBtn, 200), (c8FirstBtn, 200)]
      ∧ clickSelect false "create".data [c8FirstBtn, c8SecondBtn] = some c8SecondBtn := by
  refine ⟨by decide, by decide, by decide⟩

/-- General form of the C8 divergence: whenever the tied top candidates all
share the same secondary semantic score, the tie-break pass emits them in
REVERSE discovery order (the `reverse=True` sort on `(semantic, position)`
descends on position). -/
theorem tieBreakPass_equal_sem (sel : List Char) (sorted : List (Btn × Int))
    (hlen : 1 < (topTied sorted).length)
    (hsem : ∀ p ∈ topTied sorted, ∀ q ∈ topTied sorted,
        semanticTiebreaker sel p.1.1 = semanticTiebreaker sel q.1.1) :
    tieBreakPass sel sorted
      = ((topTied sorted).reverse).map (fun q => q.1) ++ nonTop sorted := by
  unfold tieBreakPass
  rw [if_pos hlen]
  congr 1
  rw [sortByGe_eq_reverse]
  refine (topTied_pairwise sorted).imp_of_mem ?_
  intro a b ha hb hab
  have hs := hsem a ha b hb
  simp only [tieGe, hs]
  have h1 : ¬(semanticTiebreaker sel b.1.1 < semanticTiebreaker sel b.1.1) :=
    lt_irrefl _
  have h2 : ¬(b.2 ≤ a.2) := Nat.not_le.mpr hab
  simp [h1, h2]

/-! ## Claim C9 -/

theorem sanitizePlan_steps (r : Plan) (q : String) :
    (sanitizePlan r q).steps
      = (r.steps.filter (fun s => !isLoginStep s)).filter
          (keepStepUnmentioned (lcs q)) := by
  unfold sanitizePlan filterUnmentionedSteps filterLoginSteps
  cases h1 : r.steps.isEmpty with
  | true =>
    have h0 : r.steps = [] := by simpa using h1
    simp [h1, h0]
  | false =>
    simp only [h1, Bool.false_eq_true, if_false]
    cases h2 : (r.steps.filter (fun s => !isLoginStep s)).isEmpty with
    | true =>
      have h0 : r.steps.filter (fun s => !isLoginStep s) = [] := by simpa using h2
      simp [h2, h0]
    | false => simp [h2]

/-- C9: the Plan Sanitizer is a pure filter and idempotent on the step
list — its output steps form a subsequence of the input steps (no step is
added), and applying the sanitizer to its own output removes nothing
further. -/
theorem c9_prop (p : Plan) (q : String) :
    ((sanitizePlan p q).steps.Sublist p.steps)
      ∧ (sanitizePlan (sanitizePlan p q) q).steps = (sanitizePlan p q).steps := by
  constructor
  · rw [sanitizePlan_steps]
    exact (List.filter_sublist _).trans (List.filter_sublist _)
  · rw [sanitizePlan_steps (sanitizePlan p q) q, sanitizePlan_steps p q]
    have hL : ((p.steps.filter (fun s => !isLoginStep s)).filter
        (keepStepUnmentioned (lcs q))).filter (fun s => !isLoginStep s)
        = (p.steps.filter (fun s => !isLoginStep s)).filter
            (keepStepUnmentioned (lcs q)) := by
      rw [List.filter_eq_self]
      intro a ha
      have ha2 : a ∈ p.steps.filter (fun s => !isLoginStep s) :=
        List.mem_of_mem_filter ha
      have ha3 := (List.mem_filter.mp ha2).2
      simpa using ha3
    rw [hL, List.filter_eq_self]
    intro a ha
    exact List.of_mem_filter ha

/-! ## Claim C10 -/

theorem saveDataset_append_none :
    ∀ l : List (Option CaptureRecord), saveDataset (l ++ [none]) = none := by
  intro l
  induction l with
  | nil => rfl
  | cons x t ih =>
    cases x with
    | none => rfl
    | some r =>
      show (saveDataset (t ++ [none])).map (fun l => r :: l) = none
      rw [ih]
      rfl

/-- C10: a capture request whose description contains a discovery/wait
keyword and no meaningful-action keyword, with a capture type that is
neither final nor after-login (and a description mentioning neither
"final" nor "login"), returns `none` instead of a record; the agent
appends that `none` unchanged, the reported count includes it, and the
dataset-saving pass fails on the `none` entry. -/
theorem c10_prop (d ct : String) (l : List (Option CaptureRecord)) (n : Nat)
    (hk : ((["discover", "find", "extract", "identify", "locate", "search",
        "wait", "check", "verify", "read", "examine"].map String.data).any
          (fun k => containsL (lcs d) k)) = true)
    (hm : ((["click", "type", "select", "submit", "navigate"].map String.data).any
        (fun a => containsL (lcs d) a)) = false)
    (hf1 : ct ≠ "final") (hf2 : containsL (lcs d) "final".data = false)
    (hl1 : containsL (lcs d) "login".data = false) (hl2 : ct ≠ "after-login") :
    (capture n d ct).1 = none
      ∧ capturedStatesCount (appendCaptured l (capture n d ct).1) = l.length + 1
      ∧ saveDataset (appendCaptured l (capture n d ct).1) = none := by
  have hskip : shouldSkipCapture d ct = true := by
    simp only [shouldSkipCapture]
    rw [if_neg (by simp [hf1, hf2]), if_neg (by simp [hl1, hl2]), if_pos hk]
    simp only [hm]
    rfl
  have hcap : (capture n d ct).1 = none := by
    unfold capture
    rw [if_pos hskip]
  refine ⟨hcap, ?_, ?_⟩
  · simp [capturedStatesCount, appendCaptured]
  · rw [hcap]
    exact saveDataset_append_none l

/-- Witness for `c10_prop` at the concrete description
"wait for page load" captured "before" a step. -/
theorem c10_witness :
    (capture 0 "wait for page load" "before").1 = none
      ∧ capturedStatesCount
          (appendCaptured [] (capture 0 "wait for page load" "before").1)
          = List.length ([] : List (Option CaptureRecord)) + 1
      ∧ saveDataset (appendCaptured [] (capture 0 "wait for page load" "before").1)
          = none :=
  c10_prop "wait for page load" "before" [] 0 (by decide) (by decide)
    (by decide) (by decide) (by decide) (by decide)

end Webflow
